import Mathlib

/-! # Verification of the authentication / rate-limiting middleware pipeline

Shallow embedding of the middleware subsystem of the blog API:
* `src/api/src/auth.py` — JWT validation (`JWTValidator`, `get_current_user`),
* `src/api/src/rate_limit.py` — token-bucket limiter (`RateLimiter`, `RateLimitMiddleware`),
* `src/api/src/middleware.py` — `CorrelationIdMiddleware`,
* `src/api/src/main.py` — `general_exception_handler`,
* `src/api/src/config.py` — `Settings.is_production`.

Python floats are modelled by `ℚ`, Python `int(x)` (truncation toward zero) by
`pyInt`, Python dictionaries by functions into `Option`, and raised
`TokenValidationError`s by an `Except` error result.
-/

namespace BlogApi

/-! ## Token validation (`src/api/src/auth.py`) -/

/-- The fields of `Settings` (config.py) used by the validator.  The
`environment` literal is modelled separately (see `Environment`). -/
structure Settings where
  tenant_id : String
  api_app_id_uri : String
  required_scope : String
deriving DecidableEq

/-- A bearer token as seen by `validate_token`, after the `python-jose`
library calls: the optional `kid` of its header, whether the signature
verifies against the matching JWKS key, whether the library's expiry and
audience checks pass, and its claim fields.  A missing `scp` claim is the
empty string and missing `roles` the empty list, mirroring
`claims.get("scp", "")` and `claims.get("roles", [])`. -/
structure Token where
  kid : Option String
  sigValid : Bool
  expOk : Bool
  audOk : Bool
  iss : String
  scp : String
  roles : List String
  oid : Option String
deriving DecidableEq

/-- The claim set returned on success (the fields this subsystem reads). -/
structure TokenClaims where
  iss : String
  scp : String
  roles : List String
  oid : Option String
deriving DecidableEq

/-- Reasons carried by a raised `TokenValidationError`.  Every failure path
of `validate_token` raises this one exception type. -/
inductive TokenError where
  | fetchFailed
  | missingKid
  | kidNotFound (kid : String)
  | invalidSignature
  | jwtDecodeError
  | invalidIssuer (iss : String)
  | missingScope (scope : String)
deriving DecidableEq

/-- auth.py lines 148-151: the issuer allow-list, the v2.0
`login.microsoftonline.com` issuer and the legacy `sts.windows.net` issuer
for the configured tenant. -/
def expectedIssuers (s : Settings) : List String :=
  ["https://login.microsoftonline.com/" ++ s.tenant_id ++ "/v2.0",
   "https://sts.windows.net/" ++ s.tenant_id ++ "/"]

/-- Fragments of a character list cut at every space, accumulating the
current fragment in reverse. -/
def pySplitAux : List Char → List Char → List String
  | [], acc => [String.mk acc.reverse]
  | c :: rest, acc =>
      if c = ' ' then String.mk acc.reverse :: pySplitAux rest []
      else pySplitAux rest (c :: acc)

/-- Python `str.split()` with no argument: split on whitespace and drop
empty fragments (spaces suffice for the scope strings at hand). -/
def pySplit (s : String) : List String :=
  (pySplitAux s.toList []).filter (fun t => t ≠ "")

/-- auth.py line 159: `claims.get("scp", "").split() or claims.get("roles", [])`.
The `or` falls through to `roles` exactly when the split of `scp` is the
empty list (Python falsiness). -/
def grantedScopes (claims : TokenClaims) : List String :=
  let scpList := pySplit claims.scp
  if scpList.isEmpty then claims.roles else scpList

/-- auth.py `_get_signing_key`: resolve the token's `kid` in the fetched
key set (modelled by its list of key ids). -/
def getSigningKey (tok : Token) (jwksKids : List String) : Except TokenError String :=
  match tok.kid with
  | none => .error .missingKid
  | some kid => if kid ∈ jwksKids then .ok kid else .error (.kidNotFound kid)

/-- auth.py `validate_token`, after the JWKS set has been fetched: signing-key
lookup, signature verification, library decode (expiry and audience), then
the manual issuer check against `expectedIssuers`, then the scope check
against `grantedScopes`.  Order of checks follows the source. -/
def validateToken (s : Settings) (jwksKids : List String) (tok : Token) :
    Except TokenError TokenClaims :=
  match getSigningKey tok jwksKids with
  | .error e => .error e
  | .ok _ =>
    if tok.sigValid = false then .error .invalidSignature
    else if tok.expOk = false then .error .jwtDecodeError
    else if tok.audOk = false then .error .jwtDecodeError
    else if tok.iss ∈ expectedIssuers s then
      let claims : TokenClaims := ⟨tok.iss, tok.scp, tok.roles, tok.oid⟩
      if s.required_scope ∈ grantedScopes claims then .ok claims
      else .error (.missingScope s.required_scope)
    else .error (.invalidIssuer tok.iss)

/-! ### The JWKS cache (`_fetch_jwks` and `get_current_user`)

`_jwks_cache` is an instance attribute of `JWTValidator`, initialised to
`None` in `__init__`.  The fetched JWKS body always carries a `"keys"`
member, so the Python truthiness test `if self._jwks_cache:` is modelled by
`Option.isSome`.  The third component of `fetchJwks` counts network fetches
performed by the call (0 or 1). -/

/-- A fetched key set, by its list of key ids. -/
abbrev Jwks := List String

/-- The mutable state of one `JWTValidator` instance: its `_jwks_cache`. -/
structure ValidatorState where
  jwksCache : Option Jwks
deriving DecidableEq

/-- Model of `JWTValidator.__init__`: the cache starts out `None`. -/
def initValidator : ValidatorState := ⟨none⟩

/-- Model of `_fetch_jwks`: return the cached set if present, otherwise perform one
network fetch of the endpoint and cache the result. -/
def fetchJwks (endpointKeys : Jwks) (st : ValidatorState) : Jwks × ValidatorState × Nat :=
  match st.jwksCache with
  | some cached => (cached, st, 0)
  | none => (endpointKeys, ⟨some endpointKeys⟩, 1)

/-- Repeated `_fetch_jwks` calls on one validator instance; returns the final
state and the total number of network fetches performed. -/
def fetchMany (endpointKeys : Jwks) (st : ValidatorState) : Nat → ValidatorState × Nat
  | 0 => (st, 0)
  | n + 1 =>
      let r := fetchJwks endpointKeys st
      let rest := fetchMany endpointKeys r.2.1 n
      (rest.1, r.2.2 + rest.2)

/-- auth.py lines 199-201 of `get_current_user`: construct a NEW
`JWTValidator(settings)` and validate the presented token with it.  Returns
the validation result together with the number of network fetches this
request performed. -/
def getCurrentUser (s : Settings) (endpointKeys : Jwks) (tok : Token) :
    Except TokenError TokenClaims × Nat :=
  let r := fetchJwks endpointKeys initValidator
  (validateToken s r.1 tok, r.2.2)

/-- Total number of JWKS network fetches performed by a sequence of requests
handled by `get_current_user` in one process. -/
def processRequestFetches (s : Settings) (endpointKeys : Jwks) : List Token → Nat
  | [] => 0
  | tok :: rest =>
      (getCurrentUser s endpointKeys tok).2 + processRequestFetches s endpointKeys rest

/-! ## Rate limiting (`src/api/src/rate_limit.py`) -/

/-- Python `int(x)`: truncation toward zero. -/
def pyInt (q : ℚ) : ℤ := if q < 0 then ⌈q⌉ else ⌊q⌋

/-- One per-client token bucket: `{"tokens": float, "last_update": float}`. -/
structure Bucket where
  tokens : ℚ
  last_update : ℚ
deriving DecidableEq

/-- The relevant parts of an HTTP request for the limiter: URL path, method,
client address and (when authentication already ran) the user object id on
`request.state`. -/
structure Request where
  path : String
  method : String
  clientHost : Option String
  userOid : Option String
deriving DecidableEq

/-- Model of `RateLimiter._get_client_id`: the client IP (or `"unknown"`), suffixed
with `:oid` when a truthy `user_oid` is on the request state. -/
def getClientId (r : Request) : String :=
  let clientIp := match r.clientHost with
    | some h => h
    | none => "unknown"
  match r.userOid with
  | some oid => if oid = "" then clientIp else clientIp ++ ":" ++ oid
  | none => clientIp

/-- Model of `RateLimiter._refill_tokens`: add `elapsed / per * rate` tokens, clamped
at `rate`, and stamp the bucket with the current time. -/
def refillTokens (rate per : ℚ) (now : ℚ) (b : Bucket) : Bucket :=
  let elapsed := now - b.last_update
  let tokensToAdd := elapsed / per * rate
  { tokens := min rate (b.tokens + tokensToAdd), last_update := now }

/-- The rate-limit info dictionary built by `is_allowed`. -/
structure RateInfo where
  limit : ℚ
  remaining : ℤ
  reset : ℤ
  retry_after : ℤ
deriving DecidableEq

/-- Result of one `is_allowed` step on a single bucket. -/
structure StepResult where
  allowed : Bool
  bucket : Bucket
  info : RateInfo
deriving DecidableEq

/-- The body of `RateLimiter.is_allowed` acting on one bucket: refill, admit
iff at least one token remains (decrementing by one), and build the info
dictionary.  `retry_after` is computed from the post-decision token count and
reported as `0` on admission, as in lines 85-92 of the source. -/
def isAllowedCore (rate per now : ℚ) (b : Bucket) : StepResult :=
  let b1 := refillTokens rate per now b
  let allowed := decide (b1.tokens ≥ 1)
  let b2 := if b1.tokens ≥ 1 then { b1 with tokens := b1.tokens - 1 } else b1
  let retryAfter := pyInt ((1 - b2.tokens) * (per / rate))
  { allowed := allowed
    bucket := b2
    info :=
      { limit := rate
        remaining := pyInt b2.tokens
        reset := pyInt (b2.last_update + per)
        retry_after := if allowed then 0 else retryAfter } }

/-- The `defaultdict` of buckets, keyed by client id. -/
abbrev Buckets := String → Option Bucket

/-- The bucket map with no bucket created yet. -/
def emptyBuckets : Buckets := fun _ => none

/-- Model of `RateLimiter.is_allowed`: look up (or default-create at the current time,
at full capacity) the caller's bucket, run one step on it, and store the
updated bucket back. -/
def isAllowed (rate per now : ℚ) (r : Request) (bs : Buckets) :
    (Bool × RateInfo) × Buckets :=
  let clientId := getClientId r
  let b := (bs clientId).getD { tokens := rate, last_update := now }
  let res := isAllowedCore rate per now b
  ((res.allowed, res.info), fun id => if id = clientId then some res.bucket else bs id)

/-- A sequence of `is_allowed` calls, each given by its timestamp and request. -/
def runCalls (rate per : ℚ) : List (ℚ × Request) → Buckets → Buckets
  | [], bs => bs
  | (now, r) :: rest, bs => runCalls rate per rest (isAllowed rate per now r bs).2

/-- Runs `n` consecutive `is_allowed` calls for the same request at one fixed
timestamp; returns the list of admission decisions and the final bucket map. -/
def admitSeq (rate per t : ℚ) (r : Request) : Nat → Buckets → List Bool × Buckets
  | 0, bs => ([], bs)
  | n + 1, bs =>
      let res := isAllowed rate per t r bs
      let rest := admitSeq rate per t r n res.2
      (res.1.1 :: rest.1, rest.2)

/-- Every bucket present in the map holds at most `rate` tokens. -/
def BucketsBounded (rate : ℚ) (bs : Buckets) : Prop :=
  ∀ id b, bs id = some b → b.tokens ≤ rate

/-! ### `RateLimitMiddleware` (`src/api/src/rate_limit.py` lines 95-196) -/

/-- rate_limit.py line 162: paths that bypass rate limiting. -/
def healthPaths : List String := ["/health", "/health/live", "/health/ready"]

/-- Python `needle in hay` on strings: substring test. -/
def strContains (hay needle : String) : Bool :=
  decide (needle.toList <:+: hay.toList)

/-- Model of `RateLimitMiddleware._get_limiter_type`: auth endpoints by path
substring, then write methods, then GET, then default. -/
def getLimiterType (r : Request) : String :=
  if strContains r.path "login" || strContains r.path "callback" ||
      strContains r.path "token" then "auth"
  else if r.method = "POST" || r.method = "PUT" || r.method = "PATCH" ||
      r.method = "DELETE" then "write"
  else if r.method = "GET" then "read"
  else "default"

/-- The `(rate, per)` pair of each limiter built in
`RateLimitMiddleware.__init__` (`defaultRate`/`defaultPer` are the
constructor arguments). -/
def limiterConfig (defaultRate defaultPer : ℚ) : String → ℚ × ℚ
  | "auth" => (10, 60)
  | "write" => (30, 60)
  | "read" => (100, 60)
  | _ => (defaultRate, defaultPer)

/-- The middleware's mutable state: the buckets of each named limiter. -/
structure MiddlewareState where
  limiters : String → Buckets

/-- Outcome of `RateLimitMiddleware.dispatch`: either the request was
forwarded to `call_next` (with the rate headers attached when a limiter was
consulted, none for health paths), or it was rejected with a 429. -/
inductive Outcome where
  | forwarded (info : Option RateInfo)
  | rateLimited (info : RateInfo)
deriving DecidableEq

/-- Model of `RateLimitMiddleware.dispatch`: health-check paths are forwarded
untouched; otherwise the limiter chosen by `_get_limiter_type` is consulted
(mutating its bucket) and the request is forwarded or rejected with 429. -/
def dispatch (defaultRate defaultPer now : ℚ) (r : Request) (st : MiddlewareState) :
    Outcome × MiddlewareState :=
  if r.path ∈ healthPaths then (.forwarded none, st)
  else
    let lt := getLimiterType r
    let cfg := limiterConfig defaultRate defaultPer lt
    let res := isAllowed cfg.1 cfg.2 now r (st.limiters lt)
    let st2 : MiddlewareState := ⟨fun k => if k = lt then res.2 else st.limiters k⟩
    if res.1.1 then (.forwarded (some res.1.2), st2)
    else (.rateLimited res.1.2, st2)

/-! ## `CorrelationIdMiddleware` (`src/api/src/middleware.py` lines 21-43) -/

/-- middleware.py line 32:
`request.headers.get("X-Correlation-ID") or str(uuid.uuid4())`, then the id
is stored on `request.state` and attached to the response headers.  Returns
`(request.state.correlation_id, response header value)`. -/
def correlationDispatch (headerValue : Option String) (freshUuid : String) :
    String × String :=
  let cid := match headerValue with
    | some v => if v = "" then freshUuid else v
    | none => freshUuid
  (cid, cid)

/-! ## `general_exception_handler` (`src/api/src/main.py` lines 135-153) -/

/-- The `environment` literal of config.py. -/
inductive Environment where
  | development
  | staging
  | production
deriving DecidableEq

/-- Model of `Settings.is_production` (config.py lines 110-113). -/
def is_production (env : Environment) : Bool := env = Environment.production

/-- The JSON body of an error response: the `details` field is the empty
object (`none`) or `{"message": msg}` (`some msg`). -/
structure ErrorBody where
  error : String
  details : Option String
deriving DecidableEq

/-- Model of `general_exception_handler`: status 500, generic error text, and details
suppressed exactly when `settings.is_production`. -/
def generalExceptionHandler (env : Environment) (excMsg : String) : Nat × ErrorBody :=
  (500,
   { error := "Internal server error"
     details := if is_production env then none else some excMsg })

/-! ## Concrete fixtures used to instantiate the theorems -/

/-- A concrete settings value. -/
def sampleSettings : Settings := ⟨"tenant-1", "api://app-1", "access_as_user"⟩

/-- A token that passes every check of `validateToken` with `sampleSettings`. -/
def validTok : Token :=
  ⟨some "k1", true, true, true, "https://login.microsoftonline.com/tenant-1/v2.0",
   "access_as_user", [], some "user-1"⟩

/-- A token whose `roles` list carries the required scope but whose non-empty
`scp` claim does not. -/
def rolesOnlyTok : Token :=
  ⟨some "k1", true, true, true, "https://login.microsoftonline.com/tenant-1/v2.0",
   "other_scope", ["access_as_user"], some "user-1"⟩

/-- A token that is valid except for its issuer. -/
def badIssuerTok : Token :=
  ⟨some "k1", true, true, true, "https://evil.example/tenant-1/v2.0",
   "access_as_user", [], some "user-1"⟩

/-- A token carrying neither an `scp` nor a `roles` grant. -/
def noScopeTok : Token :=
  ⟨some "k1", true, true, true, "https://login.microsoftonline.com/tenant-1/v2.0",
   "", [], some "user-1"⟩

/-- A plain read request from one client address. -/
def sampleReq : Request := ⟨"/v1/posts", "GET", some "10.0.0.1", none⟩

/-- A read request from a second, distinct client address. -/
def sampleReq2 : Request := ⟨"/v1/posts", "GET", some "10.0.0.2", none⟩

/-- A request to a health-check path. -/
def healthReq : Request := ⟨"/health", "GET", some "10.0.0.1", none⟩

/-- The middleware state in which every limiter's bucket map is empty. -/
def mwInit : MiddlewareState := ⟨fun _ => emptyBuckets⟩

/-- A bucket map holding exactly one bucket. -/
def singleBucket (cid : String) (b : Bucket) : Buckets :=
  fun id => if id = cid then some b else none

/-! ## Theorems -/

/-! ### C1 — the scope check (`validate_token`, auth.py lines 158-163) -/

/-- Helper: a scope missing from both the split `scp` claim and the `roles`
claim is missing from the granted scope list, whichever branch the `or`
takes. -/
theorem grantedScopes_sub (claims : TokenClaims) (x : String)
    (hscp : x ∉ pySplit claims.scp) (hroles : x ∉ claims.roles) :
    x ∉ grantedScopes claims := by
  by_cases h : (pySplit claims.scp).isEmpty <;> simp [grantedScopes, h, hscp, hroles]

/-- C1 (amended).  A token whose claims carry the required scope string in
neither the space-separated `scp` claim nor the `roles` list is always
rejected, regardless of signature validity; and the scope check passes when
the required scope is present in the granted scope list `grantedScopes`,
which is the split `scp` claim when that is non-empty and only falls back to
`roles` when it is empty.  (The original claim's converse — that presence in
`roles` alone suffices — is refuted by `validate_token_scope_counterexample`.) -/
theorem validate_token_scope_check (s : Settings) (jwksKids : List String) (tok : Token) :
    (s.required_scope ∉ pySplit tok.scp → s.required_scope ∉ tok.roles →
      ∀ c, validateToken s jwksKids tok ≠ .ok c) ∧
    (∀ kid, tok.kid = some kid → kid ∈ jwksKids → tok.sigValid = true →
      tok.expOk = true → tok.audOk = true → tok.iss ∈ expectedIssuers s →
      s.required_scope ∈ grantedScopes ⟨tok.iss, tok.scp, tok.roles, tok.oid⟩ →
      validateToken s jwksKids tok = .ok ⟨tok.iss, tok.scp, tok.roles, tok.oid⟩) := by
  constructor
  · intro hscp hroles c
    have hg := grantedScopes_sub ⟨tok.iss, tok.scp, tok.roles, tok.oid⟩
      s.required_scope hscp hroles
    unfold validateToken
    split
    · simp
    · split
      · simp
      · split
        · simp
        · split
          · simp
          · split
            · rw [if_neg hg]
              simp
            · simp
  · intro kid hkid hk hsig hexp haud hiss hscope
    unfold validateToken getSigningKey
    rw [hkid]
    simp [hk, hsig, hexp, haud, hiss, hscope]

/-- C1 witness: a fully valid token whose `scp` claim carries the required
scope is accepted and its claims returned. -/
theorem validate_token_scope_check_witness :
    validateToken sampleSettings ["k1"] validTok =
      .ok ⟨validTok.iss, validTok.scp, validTok.roles, validTok.oid⟩ :=
  (validate_token_scope_check sampleSettings ["k1"] validTok).2 "k1" rfl
    (by decide) rfl rfl rfl (by decide) (by decide)

/-- C1 counterexample: `rolesOnlyTok` carries the required scope in its
`roles` claim, yet because its `scp` claim is a non-empty string without
that scope, `validate_token` rejects it with a missing-scope error — the
scope check does not pass whenever the scope is "present among the token's
granted scopes or roles". -/
theorem validate_token_scope_counterexample :
    sampleSettings.required_scope ∈ rolesOnlyTok.roles ∧
    validateToken sampleSettings ["k1"] rolesOnlyTok =
      .error (.missingScope "access_as_user") := by
  constructor
  · decide
  · rfl

/-! ### C2 — the issuer allow-list (`validate_token`, auth.py lines 146-156) -/

/-- C2.  A token whose `iss` claim matches neither allow-listed issuer URI
(the v2.0 `login.microsoftonline.com` issuer and the legacy
`sts.windows.net` issuer for the configured tenant) never yields a claim
set, and when every earlier check (key lookup, signature, expiry, audience)
passes, the raised error names the invalid issuer. -/
theorem validate_token_issuer_check (s : Settings) (jwksKids : List String)
    (tok : Token) (hiss : tok.iss ∉ expectedIssuers s) :
    (∀ c, validateToken s jwksKids tok ≠ .ok c) ∧
    (∀ kid, tok.kid = some kid → kid ∈ jwksKids → tok.sigValid = true →
      tok.expOk = true → tok.audOk = true →
      validateToken s jwksKids tok = .error (.invalidIssuer tok.iss)) := by
  constructor
  · intro c
    unfold validateToken
    split
    · simp
    · split_ifs with h1 h2 h3 <;> simp_all
  · intro kid hkid hk hsig hexp haud
    unfold validateToken getSigningKey
    rw [hkid]
    simp [hk, hsig, hexp, haud, hiss]

/-- C2 witness: a token with a foreign issuer is rejected with an
invalid-issuer error. -/
theorem validate_token_issuer_check_witness :
    validateToken sampleSettings ["k1"] badIssuerTok =
      .error (.invalidIssuer badIssuerTok.iss) :=
  (validate_token_issuer_check sampleSettings ["k1"] badIssuerTok (by decide)).2
    "k1" rfl (by decide) rfl rfl rfl

/-! ### C3 — the JWKS cache (`_fetch_jwks` / `get_current_user`) -/

/-- Helper: once a validator instance holds a cached key set, further
`_fetch_jwks` calls on it return immediately and never fetch. -/
theorem fetchMany_cached (keys j : Jwks) (n : Nat) :
    fetchMany keys ⟨some j⟩ n = (⟨some j⟩, 0) := by
  induction n with
  | zero => rfl
  | succ n ih => simp [fetchMany, fetchJwks, ih]

/-- C3 (amended).  The `_jwks_cache` is per-`JWTValidator`-instance, not
process-wide: within a single validator instance any number of `_fetch_jwks`
calls performs at most one network fetch, but `get_current_user` constructs
a fresh validator for every request, so a process performing `n` validations
through it performs exactly `n` network fetches — one per request, including
every successful one after the first. -/
theorem jwks_cache_per_validator (keys : Jwks) :
    (∀ n, (fetchMany keys initValidator n).2 ≤ 1) ∧
    (∀ s toks, processRequestFetches s keys toks = toks.length) := by
  constructor
  · intro n
    cases n with
    | zero => simp [fetchMany]
    | succ n => simp [fetchMany, fetchJwks, initValidator, fetchMany_cached]
  · intro s toks
    induction toks with
    | nil => rfl
    | cons t ts ih =>
      simp [processRequestFetches, getCurrentUser, fetchJwks, initValidator, ih]
      omega

/-- C3 counterexample: two consecutive successful validations of the same
valid token through `get_current_user` perform two network fetches, not at
most one. -/
theorem jwks_fetch_per_request_counterexample :
    (getCurrentUser sampleSettings ["k1"] validTok).1 =
      .ok ⟨"https://login.microsoftonline.com/tenant-1/v2.0", "access_as_user", [],
           some "user-1"⟩ ∧
    processRequestFetches sampleSettings ["k1"] [validTok, validTok] = 2 ∧
    ¬ processRequestFetches sampleSettings ["k1"] [validTok, validTok] ≤ 1 := by
  refine ⟨rfl, rfl, by decide⟩

/-! ### C4 — the capacity invariant (`_refill_tokens` / `is_allowed`) -/

/-- Helper: refilling clamps the token count at the configured capacity. -/
theorem refill_le (rate per now : ℚ) (b : Bucket) :
    (refillTokens rate per now b).tokens ≤ rate := min_le_left _ _

/-- Helper: after one `is_allowed` step the bucket holds at most `rate`
tokens. -/
theorem core_tokens_le (rate per now : ℚ) (b : Bucket) :
    (isAllowedCore rate per now b).bucket.tokens ≤ rate := by
  have h := refill_le rate per now b
  simp only [isAllowedCore]
  split
  · simp only
    linarith
  · exact h

/-- Helper: one `is_allowed` call keeps every bucket of the map within
capacity. -/
theorem isAllowed_preserves_bound (rate per now : ℚ) (r : Request) (bs : Buckets)
    (hbs : BucketsBounded rate bs) :
    BucketsBounded rate (isAllowed rate per now r bs).2 := by
  intro id b hb
  simp only [isAllowed] at hb
  by_cases hid : id = getClientId r
  · rw [if_pos hid] at hb
    cases hb
    exact core_tokens_le rate per now _
  · rw [if_neg hid] at hb
    exact hbs id b hb

/-- C4.  Across any sequence of `is_allowed` calls at any timestamps,
starting from any bucket map within capacity, every bucket's token count
stays at most the configured `rate` (refill adds
`elapsed / per * rate` but clamps at `rate`); and every admitted call
decrements the refilled count by exactly one. -/
theorem bucket_never_exceeds_capacity (rate per : ℚ) (calls : List (ℚ × Request))
    (bs : Buckets) (hbs : BucketsBounded rate bs) :
    BucketsBounded rate (runCalls rate per calls bs) ∧
    (∀ now b, (isAllowedCore rate per now b).allowed = true →
      (isAllowedCore rate per now b).bucket.tokens =
        (refillTokens rate per now b).tokens - 1) := by
  constructor
  · induction calls generalizing bs with
    | nil => exact hbs
    | cons call rest ih =>
      exact ih _ (isAllowed_preserves_bound rate per call.1 call.2 bs hbs)
  · intro now b hallowed
    simp only [isAllowedCore, decide_eq_true_eq] at hallowed ⊢
    rw [if_pos hallowed]

/-- C4 witness: after one call on an initially empty map with capacity 2,
every stored bucket is within capacity. -/
theorem bucket_never_exceeds_capacity_witness :
    BucketsBounded 2 (runCalls 2 60 [(0, sampleReq)] emptyBuckets) :=
  (bucket_never_exceeds_capacity 2 60 [(0, sampleReq)] emptyBuckets
    (fun id b h => by simp [emptyBuckets] at h)).1

/-! ### C5 — exhaustion and full-window refill -/

/-- Helper: a refill with zero elapsed time leaves a within-capacity bucket
unchanged. -/
theorem refill_zero_elapsed (rate per t x : ℚ) (hx : x ≤ rate) :
    refillTokens rate per t ⟨x, t⟩ = ⟨x, t⟩ := by
  simp [refillTokens, min_eq_right hx]

/-- Helper: `is_allowed` on a map already holding the caller's bucket
consults exactly that bucket and stores the stepped bucket back. -/
theorem isAllowed_at (rate per now : ℚ) (r : Request) (bs : Buckets) (b : Bucket)
    (hb : bs (getClientId r) = some b) :
    isAllowed rate per now r bs =
      (((isAllowedCore rate per now b).allowed, (isAllowedCore rate per now b).info),
       fun id => if id = getClientId r then some (isAllowedCore rate per now b).bucket
         else bs id) := by
  simp [isAllowed, hb]

/-- Helper: `is_allowed` for an unseen client creates the bucket at full
capacity, stamped with the current time. -/
theorem isAllowed_fresh (rate per now : ℚ) (r : Request) (bs : Buckets)
    (hb : bs (getClientId r) = none) :
    isAllowed rate per now r bs =
      (((isAllowedCore rate per now ⟨rate, now⟩).allowed,
        (isAllowedCore rate per now ⟨rate, now⟩).info),
       fun id => if id = getClientId r then
           some (isAllowedCore rate per now ⟨rate, now⟩).bucket
         else bs id) := by
  simp [isAllowed, hb]

/-- Helper: with zero elapsed time and at least one token, the step admits
and decrements by one. -/
theorem core_step_allow (rate per t x : ℚ) (hx : x ≤ rate) (h1 : 1 ≤ x) :
    (isAllowedCore rate per t ⟨x, t⟩).allowed = true ∧
    (isAllowedCore rate per t ⟨x, t⟩).bucket = ⟨x - 1, t⟩ := by
  simp [isAllowedCore, refill_zero_elapsed rate per t x hx, h1]

/-- Helper: with zero elapsed time and less than one token, the step denies
and leaves the bucket unchanged. -/
theorem core_step_deny (rate per t x : ℚ) (hx : x ≤ rate) (h1 : x < 1) :
    (isAllowedCore rate per t ⟨x, t⟩).allowed = false ∧
    (isAllowedCore rate per t ⟨x, t⟩).bucket = ⟨x, t⟩ := by
  simp [isAllowedCore, refill_zero_elapsed rate per t x hx, not_le.mpr h1]

/-- Helper: from a bucket holding `c - j` tokens, `k` further zero-elapsed
calls (with `j + k ≤ c`) are all admitted and leave `c - (j + k)` tokens. -/
theorem admitSeq_strided (c : ℕ) (w t : ℚ) (r : Request) :
    ∀ k j : ℕ, j + k ≤ c →
      admitSeq (c:ℚ) w t r k (singleBucket (getClientId r) ⟨(c:ℚ) - j, t⟩) =
        (List.replicate k true,
         singleBucket (getClientId r) ⟨(c:ℚ) - ((j + k : ℕ) : ℚ), t⟩) := by
  intro k
  induction k with
  | zero =>
    intro j hj
    simp [admitSeq]
  | succ k ih =>
    intro j hj
    have hx : (c:ℚ) - j ≤ (c:ℚ) := by
      have : (0:ℚ) ≤ j := Nat.cast_nonneg j
      linarith
    have h1 : (1:ℚ) ≤ (c:ℚ) - j := by
      have hjc : (j:ℚ) + 1 ≤ c := by
        have : j + 1 ≤ c := by omega
        exact_mod_cast this
      linarith
    have hb : singleBucket (getClientId r) ⟨(c:ℚ) - j, t⟩ (getClientId r) =
        some ⟨(c:ℚ) - j, t⟩ := by
      simp [singleBucket]
    obtain ⟨ha, hbk⟩ := core_step_allow (c:ℚ) w t ((c:ℚ) - j) hx h1
    have hmap : (fun id => if id = getClientId r then
          some (isAllowedCore (c:ℚ) w t ⟨(c:ℚ) - j, t⟩).bucket
        else singleBucket (getClientId r) ⟨(c:ℚ) - j, t⟩ id) =
        singleBucket (getClientId r) ⟨(c:ℚ) - ((j + 1 : ℕ) : ℚ), t⟩ := by
      funext id
      by_cases hid : id = getClientId r
      · simp [singleBucket, hid, hbk]
        ring
      · simp [singleBucket, hid]
    rw [admitSeq, isAllowed_at (c:ℚ) w t r _ _ hb, hmap]
    rw [ih (j + 1) (by omega)]
    simp only [ha]
    rw [show j + 1 + k = j + (k + 1) from by omega]
    rfl

/-- C5.  A fresh bucket of capacity `c ≥ 1` admits exactly `c` consecutive
zero-elapsed `is_allowed` calls, leaving an empty bucket; the `(c+1)`-th
zero-elapsed call is denied; and a refill after an idle interval of at least
one full window `w` restores the bucket to exactly `c` tokens, never more. -/
theorem fresh_bucket_exhaust_and_refill (c : ℕ) (w t tl : ℚ) (r : Request)
    (hc : 1 ≤ c) (hw : 0 < w) (hlate : t + w ≤ tl) :
    (admitSeq (c:ℚ) w t r c emptyBuckets).1 = List.replicate c true ∧
    (admitSeq (c:ℚ) w t r c emptyBuckets).2 (getClientId r) = some ⟨0, t⟩ ∧
    (isAllowed (c:ℚ) w t r (admitSeq (c:ℚ) w t r c emptyBuckets).2).1.1 = false ∧
    (refillTokens (c:ℚ) w tl ⟨0, t⟩).tokens = (c:ℚ) := by
  obtain ⟨c1, rfl⟩ : ∃ c1, c = c1 + 1 := ⟨c - 1, by omega⟩
  have hc1 : (1:ℚ) ≤ ((c1 + 1 : ℕ) : ℚ) := by exact_mod_cast hc
  have hfresh : emptyBuckets (getClientId r) = none := rfl
  obtain ⟨ha, hbk⟩ := core_step_allow ((c1 + 1 : ℕ) : ℚ) w t ((c1 + 1 : ℕ) : ℚ) le_rfl hc1
  have hmap : (fun id => if id = getClientId r then
        some (isAllowedCore ((c1 + 1 : ℕ) : ℚ) w t ⟨((c1 + 1 : ℕ) : ℚ), t⟩).bucket
      else emptyBuckets id) =
      singleBucket (getClientId r) ⟨((c1 + 1 : ℕ) : ℚ) - ((1 : ℕ) : ℚ), t⟩ := by
    funext id
    by_cases hid : id = getClientId r
    · subst hid
      rw [if_pos rfl, hbk]
      simp [singleBucket]
    · simp [singleBucket, hid, emptyBuckets]
  have hend : (⟨((c1 + 1 : ℕ) : ℚ) - ((1 + c1 : ℕ) : ℚ), t⟩ : Bucket) = ⟨0, t⟩ := by
    have h0 : ((c1 + 1 : ℕ) : ℚ) - ((1 + c1 : ℕ) : ℚ) = 0 := by
      push_cast
      ring
    rw [h0]
  have hrun : admitSeq ((c1 + 1 : ℕ) : ℚ) w t r (c1 + 1) emptyBuckets =
      (List.replicate (c1 + 1) true, singleBucket (getClientId r) ⟨0, t⟩) := by
    rw [admitSeq, isAllowed_fresh ((c1 + 1 : ℕ) : ℚ) w t r emptyBuckets hfresh]
    dsimp only
    rw [hmap, admitSeq_strided (c1 + 1) w t r c1 1 (by omega)]
    simp only [ha, hend]
    rfl
  have hb0 : singleBucket (getClientId r) ⟨0, t⟩ (getClientId r) = some ⟨0, t⟩ := by
    simp [singleBucket]
  refine ⟨?_, ?_, ?_, ?_⟩
  · rw [hrun]
  · rw [hrun]
    exact hb0
  · rw [hrun]
    rw [isAllowed_at ((c1 + 1 : ℕ) : ℚ) w t r _ ⟨0, t⟩ hb0]
    exact (core_step_deny ((c1 + 1 : ℕ) : ℚ) w t 0 (by positivity) (by norm_num)).1
  · have hone : (1:ℚ) ≤ (tl - t) / w := (one_le_div hw).mpr (by linarith)
    have hcc : ((c1 + 1 : ℕ) : ℚ) ≤ (tl - t) / w * ((c1 + 1 : ℕ) : ℚ) :=
      le_mul_of_one_le_left (by positivity) hone
    simp only [refillTokens]
    rw [zero_add]
    exact min_eq_left hcc

/-- C5 witness: with capacity 2 and a 60-second window, two instant calls
are both admitted. -/
theorem fresh_bucket_exhaust_witness :
    (admitSeq ((2:ℕ):ℚ) 60 0 sampleReq 2 emptyBuckets).1 = List.replicate 2 true :=
  (fresh_bucket_exhaust_and_refill 2 60 0 60 sampleReq (by norm_num) (by norm_num)
    (by norm_num)).1

/-! ### C6 — per-call refill, admission, and retry-after -/

/-- C6 (amended).  Each call refills the bucket to
`min rate (tokens + elapsed / per * rate)`; with at least one refilled token
it admits, decrements by one and reports `retry_after = 0`; otherwise it
denies, leaves the refilled count, and reports the *integer truncation*
`pyInt ((1 - tokens) * (per / rate))` as `retry_after` — which may round a
positive deficit-proportional duration down to zero (see
`retry_after_truncation_counterexample`). -/
theorem per_call_refill_step (rate per now : ℚ) (b : Bucket) (refilled : ℚ)
    (hr : refilled = min rate (b.tokens + (now - b.last_update) / per * rate)) :
    (refillTokens rate per now b).tokens = refilled ∧
    (1 ≤ refilled →
      (isAllowedCore rate per now b).allowed = true ∧
      (isAllowedCore rate per now b).bucket.tokens = refilled - 1 ∧
      (isAllowedCore rate per now b).info.retry_after = 0) ∧
    (refilled < 1 →
      (isAllowedCore rate per now b).allowed = false ∧
      (isAllowedCore rate per now b).bucket.tokens = refilled ∧
      (isAllowedCore rate per now b).info.retry_after =
        pyInt ((1 - refilled) * (per / rate))) := by
  have hrt : (refillTokens rate per now b).tokens = refilled := by
    rw [hr]; rfl
  refine ⟨hrt, fun h1 => ?_, fun h1 => ?_⟩
  · simp [isAllowedCore, hrt, h1]
  · simp [isAllowedCore, hrt, not_le.mpr h1, h1.not_le]

/-- C6 witness: an empty bucket of the 100-per-60s limiter is denied with
the truncated retry-after value. -/
theorem per_call_refill_step_witness :
    (isAllowedCore 100 60 0 ⟨0, 0⟩).allowed = false ∧
    (isAllowedCore 100 60 0 ⟨0, 0⟩).bucket.tokens = 0 ∧
    (isAllowedCore 100 60 0 ⟨0, 0⟩).info.retry_after =
      pyInt ((1 - 0) * ((60:ℚ) / 100)) :=
  (per_call_refill_step 100 60 0 ⟨0, 0⟩ 0 (by norm_num)).2.2 (by norm_num)

/-- C6 counterexample: on denial with an empty bucket of the 100-per-60s
limiter, the deficit-scaled duration is `3/5` of a second but the returned
`retry_after` is `0` — the returned value is the integer truncation, not the
product itself. -/
theorem retry_after_truncation_counterexample :
    (isAllowedCore 100 60 0 ⟨0, 0⟩).allowed = false ∧
    (isAllowedCore 100 60 0 ⟨0, 0⟩).info.retry_after = 0 ∧
    (1 - (isAllowedCore 100 60 0 ⟨0, 0⟩).bucket.tokens) * ((60:ℚ) / 100) = 3 / 5 ∧
    (3:ℚ) / 5 ≠ 0 := by
  refine ⟨?_, ?_, ?_, by norm_num⟩
  · norm_num [isAllowedCore, refillTokens]
  · norm_num [isAllowedCore, refillTokens, pyInt]
  · norm_num [isAllowedCore, refillTokens]

/-! ### C7 — health-check bypass (`RateLimitMiddleware.dispatch`) -/

/-- C7.  A request to any health-check path is forwarded to the next handler
with the middleware state untouched: no limiter bucket is consulted or
mutated and no 429 rejection is produced, regardless of bucket state. -/
theorem health_paths_bypass_rate_limiting (defaultRate defaultPer now : ℚ)
    (r : Request) (st : MiddlewareState) (h : r.path ∈ healthPaths) :
    dispatch defaultRate defaultPer now r st = (.forwarded none, st) := by
  simp [dispatch, h]

/-- C7 witness: a `/health` request passes through the empty-state
middleware unchanged. -/
theorem health_paths_bypass_witness :
    dispatch 100 60 0 healthReq mwInit = (.forwarded none, mwInit) :=
  health_paths_bypass_rate_limiting 100 60 0 healthReq mwInit (by decide)

/-! ### C8 — bucket isolation between client identities -/

/-- C8.  An `is_allowed` call for one request leaves the bucket entry of
every other client identity in the map exactly as it was. -/
theorem distinct_clients_frame (rate per now : ℚ) (r1 r2 : Request) (bs : Buckets)
    (h : getClientId r2 ≠ getClientId r1) :
    (isAllowed rate per now r1 bs).2 (getClientId r2) = bs (getClientId r2) := by
  simp [isAllowed, h]

/-- C8 witness: a call for one client address leaves a second address's
(empty) bucket entry unchanged. -/
theorem distinct_clients_frame_witness :
    (isAllowed 100 60 0 sampleReq emptyBuckets).2 (getClientId sampleReq2) =
      emptyBuckets (getClientId sampleReq2) :=
  distinct_clients_frame 100 60 0 sampleReq sampleReq2 emptyBuckets (by decide)

/-! ### C9 — the outermost exception handler (`main.py` lines 135-153) -/

/-- C9 (amended).  Every unhandled fault is answered with status 500, and
the `details` field is the empty object exactly when the environment is
`production`; in `development` *and* in `staging` the exception message is
included.  (The original claim — empty whenever the environment is not
development — fails for `staging`; see
`general_handler_staging_counterexample`.) -/
theorem general_handler_500_details (env : Environment) (excMsg : String) :
    ((generalExceptionHandler env excMsg).1 = 500) ∧
    ((generalExceptionHandler env excMsg).2.details = none ↔ env = .production) := by
  cases env <;> simp [generalExceptionHandler, is_production]

/-- C9 counterexample: in the `staging` environment — which is not
development mode — the handler still returns status 500 but includes the
exception message in `details` instead of the empty object. -/
theorem general_handler_staging_counterexample :
    (generalExceptionHandler .staging "boom").1 = 500 ∧
    Environment.staging ≠ Environment.development ∧
    (generalExceptionHandler .staging "boom").2.details = some "boom" :=
  ⟨rfl, by decide, rfl⟩

/-! ### C10 — correlation-id propagation (`CorrelationIdMiddleware`) -/

/-- C10.  A request carrying a non-empty `X-Correlation-ID` header has
exactly that value stored in request state and echoed verbatim in the
response header; with a missing or empty header the freshly generated UUID
is stored and attached; and the response header always equals the stored
state value, so every response carries a correlation id. -/
theorem correlation_id_echo (headerValue : Option String) (freshUuid : String) :
    (∀ v, headerValue = some v → v ≠ "" →
       correlationDispatch headerValue freshUuid = (v, v)) ∧
    ((headerValue = none ∨ headerValue = some "") →
       correlationDispatch headerValue freshUuid = (freshUuid, freshUuid)) ∧
    (correlationDispatch headerValue freshUuid).2 =
      (correlationDispatch headerValue freshUuid).1 := by
  refine ⟨?_, ?_, rfl⟩
  · rintro v rfl hv
    simp [correlationDispatch, hv]
  · rintro (rfl | rfl) <;> simp [correlationDispatch]

/-- C10 witness: a request with header value `abc` gets `abc` stored and
echoed. -/
theorem correlation_id_echo_witness :
    correlationDispatch (some "abc") "u1" = ("abc", "abc") :=
  (correlation_id_echo (some "abc") "u1").1 "abc" rfl (by decide)

end BlogApi
